import Mathlib

/-!
Verification development for the Quick-SIN sentence analyzer.

The analysis core lives in `src/modules/analysis_utils.py` (observation
aggregation, psychometric logistic fitting, validity classification, batch
analysis) and `src/pages/2_Analyzer.py` (threshold-scheme reclassification,
excluded-id accounting, overlay-plot call site).  The development below is a
shallow embedding of those functions over `ℚ` (floats idealized as rationals;
the transcendental curve reconstruction is embedded over `ℝ`).  The external
scikit-learn logistic solver is modelled as an abstract parameter that either
returns `(intercept, coefficient)` or fails with an exception message, exactly
the two behaviours the Python `try`/`except` block distinguishes.
-/

namespace QSin

/-- One row of the processed observation DataFrame consumed by
`estimate_snr50_for_sentence` and `analyze_all_sentences`
(columns actually read by the analysis core). -/
structure Row where
  sentence_id : ℕ
  full_sentence : String
  snr_level : ℚ
  total_score : ℚ
  correct_rate : ℚ
deriving DecidableEq

/-- `pandas.Series.unique`: distinct values in first-encountered order
(accumulator variant, structural recursion). -/
def firstDedupAux {α : Type} [DecidableEq α] (seen : List α) : List α → List α
  | [] => []
  | x :: xs =>
      if x ∈ seen then firstDedupAux seen xs
      else x :: firstDedupAux (x :: seen) xs

/-- `pandas.Series.unique`: distinct values in first-encountered order. -/
def firstDedup {α : Type} [DecidableEq α] (l : List α) : List α :=
  firstDedupAux [] l

/-- `pandas.Series.min` for a nonempty series (default 0 on the empty list,
which the callers never hit). -/
def listMinD : List ℚ → ℚ
  | [] => 0
  | x :: xs => xs.foldl min x

/-- `pandas.Series.max` for a nonempty series (default 0 on the empty list,
which the callers never hit). -/
def listMaxD : List ℚ → ℚ
  | [] => 0
  | x :: xs => xs.foldl max x

/-- Python 3 `round` with no digits: round half to even, as used in
`int(round(rate * n_trials))`. -/
def pyRound (q : ℚ) : ℤ :=
  if q - ⌊q⌋ < 1/2 then ⌊q⌋
  else if q - ⌊q⌋ > 1/2 then ⌊q⌋ + 1
  else if ⌊q⌋ % 2 = 0 then ⌊q⌋ else ⌊q⌋ + 1

/-- `data.groupby('snr_level')['correct_rate'].mean().reset_index()`:
one `(snr_level, mean correct_rate)` pair per distinct level, levels in
ascending order (pandas groupby sorts the keys). -/
def aggData (data : List Row) : List (ℚ × ℚ) :=
  (List.insertionSort (· ≤ ·) (firstDedup (data.map Row.snr_level))).map
    (fun lv =>
      (lv, ((data.filter (fun r => r.snr_level = lv)).map Row.correct_rate).sum /
        (((data.filter (fun r => r.snr_level = lv)).length : ℚ))))

/-- Validity label attached to a fit (`'Ideal'`, `'Acceptable'`, `'Warning'`,
`'Extrapolated'`; `VError` is the `'Error'` string produced by the
exception branch). -/
inductive VLabel where
  | Ideal
  | Acceptable
  | Warning
  | Extrapolated
  | VError
deriving DecidableEq

/-- Fit status (`'Success'`, `'Error: Not Enough Data Points'`,
`'Error: All Same Results'`, `'Error: Zero Slope'`, and the
exception-branch `'Error: {e}'` message). -/
inductive FitStatus where
  | Success
  | InsufficientData
  | DegenerateData
  | ZeroSlope
  | Error (msg : String)
deriving DecidableEq

/-- The result dictionary returned by `estimate_snr50_for_sentence`:
keys absent from a given return statement are `none`. -/
structure FitResult where
  status : FitStatus
  snr_50 : Option ℚ
  slope : Option ℚ
  validity : Option VLabel
  model : Option (ℚ × ℚ)
  plot_data : List (ℚ × ℚ)
deriving DecidableEq

/-- The deterministic Bernoulli-trial expansion of one aggregated point:
`int(round(rate * 100))` success trials followed by the remaining failure
trials, each carrying the point's snr_level. -/
def bernoulliBlock (p : ℚ × ℚ) : List (ℚ × ℕ) :=
  List.replicate (pyRound (p.2 * 100)).toNat (p.1, 1) ++
    List.replicate (100 - (pyRound (p.2 * 100)).toNat) (p.1, 0)

/-- `X_resampled` zipped with `y_resampled`: the expansion of every
aggregated point, in row order. -/
def expandTrials (agg : List (ℚ × ℚ)) : List (ℚ × ℕ) :=
  agg.flatMap bernoulliBlock

/-- The external logistic solver (`LogisticRegression(solver='liblinear')`
from scikit-learn): from the expanded trials it either produces
`(intercept_[0], coef_[0][0])` or raises an exception with a message. -/
def Solver : Type := List (ℚ × ℕ) → Except String (ℚ × ℚ)

/-- The validity chain of `estimate_snr50_for_sentence`: outside the tested
envelope `[min - 5, max + 5]` gives `Extrapolated`; else the fixed bands
`[0.5, 3.5]` (Ideal) and `[-1.0, 5.0]` (Acceptable); else `Warning`. -/
def classifyValidity (levels : List ℚ) (snr50 : ℚ) : VLabel :=
  if ¬ (listMinD levels - 5 ≤ snr50 ∧ snr50 ≤ listMaxD levels + 5) then
    VLabel.Extrapolated
  else if 1/2 ≤ snr50 ∧ snr50 ≤ 7/2 then VLabel.Ideal
  else if -1 ≤ snr50 ∧ snr50 ≤ 5 then VLabel.Acceptable
  else VLabel.Warning

/-- `estimate_snr50_for_sentence(data)`: aggregate, guard on fewer than 3
distinct levels and on a flat mean correct-rate, expand to Bernoulli trials,
run the (abstract, possibly raising) logistic solver, guard on a near-zero
coefficient, and on success derive `snr_50 = -intercept/coef`,
`slope = coef/4*100`, and the validity label. -/
def estimate_snr50_for_sentence (solve : Solver) (data : List Row) : FitResult :=
  if (aggData data).length < 3 then
    ⟨FitStatus.InsufficientData, none, none, none, none, aggData data⟩
  else if listMinD ((aggData data).map Prod.snd)
      = listMaxD ((aggData data).map Prod.snd) then
    ⟨FitStatus.DegenerateData, none, none, none, none, aggData data⟩
  else
    match solve (expandTrials (aggData data)) with
    | Except.error e =>
        ⟨FitStatus.Error e, none, none, some VLabel.VError, none, aggData data⟩
    | Except.ok (intercept, coef) =>
        if |coef| < 1/1000000 then
          ⟨FitStatus.ZeroSlope, none, none, none, some (intercept, coef),
            aggData data⟩
        else
          ⟨FitStatus.Success, some (-intercept / coef), some (coef / 4 * 100),
            some (classifyValidity ((aggData data).map Prod.fst)
              (-intercept / coef)),
            some (intercept, coef), aggData data⟩

/-- One row appended to the batch results for a Success fit
(`analyze_all_sentences` loop body). -/
structure SentenceSummary where
  sentence_id : ℕ
  full_sentence : String
  snr_50 : Option ℚ
  slope : Option ℚ
  validity : Option VLabel
  total_score_sum : ℚ
  avg_score : ℚ
  data_points : ℕ
  snr_levels : ℕ
deriving DecidableEq

/-- The body of the `analyze_all_sentences` loop for one sentence id:
fit the sentence's slice of the data and, on Success only, build its
`SentenceSummary`. -/
def summarize (solve : Solver) (data : List Row) (sid : ℕ) :
    Option SentenceSummary :=
  if (estimate_snr50_for_sentence solve
        (data.filter (fun r => r.sentence_id = sid))).status
      = FitStatus.Success then
    some
      { sentence_id := sid
        full_sentence :=
          ((data.filter (fun r => r.sentence_id = sid)).map
            Row.full_sentence).headD ""
        snr_50 := (estimate_snr50_for_sentence solve
          (data.filter (fun r => r.sentence_id = sid))).snr_50
        slope := (estimate_snr50_for_sentence solve
          (data.filter (fun r => r.sentence_id = sid))).slope
        validity := (estimate_snr50_for_sentence solve
          (data.filter (fun r => r.sentence_id = sid))).validity
        total_score_sum :=
          ((data.filter (fun r => r.sentence_id = sid)).map Row.total_score).sum
        avg_score :=
          ((data.filter (fun r => r.sentence_id = sid)).map Row.total_score).sum /
            (((data.filter (fun r => r.sentence_id = sid)).length : ℚ))
        data_points := (data.filter (fun r => r.sentence_id = sid)).length
        snr_levels :=
          (firstDedup ((data.filter (fun r => r.sentence_id = sid)).map
            Row.snr_level)).length }
  else none

/-- `analyze_all_sentences(data)`: iterate the distinct sentence ids in
first-encountered order, fit each sentence's slice independently, and
collect a `SentenceSummary` for exactly the Success fits. -/
def analyze_all_sentences (solve : Solver) (data : List Row) :
    List SentenceSummary :=
  (firstDedup (data.map Row.sentence_id)).filterMap (summarize solve data)

/-- The analyzed sentence ids (`analysis_results_df['sentence_id']`). -/
def analyzedIds (solve : Solver) (data : List Row) : List ℕ :=
  (analyze_all_sentences solve data).map SentenceSummary.sentence_id

/-- The caller-side exclusion accounting in `2_Analyzer.py`:
`sorted(list(all_ids - analyzed_ids))`. -/
def excluded_ids (solve : Solver) (data : List Row) : List ℕ :=
  List.insertionSort (· ≤ ·)
    ((firstDedup (data.map Row.sentence_id)).filter
      (fun sid => sid ∉ analyzedIds solve data))

/-- Hardcoded Ideal band of the quartile-scheme branch of `2_Analyzer.py`. -/
def iqr_ideal_range : ℚ × ℚ := (-856/100, -557/100)

/-- Hardcoded Acceptable band of the quartile-scheme branch. -/
def iqr_acceptable_range : ℚ × ℚ := (-1005/100, -407/100)

/-- Hardcoded Ideal band of the mean-plus-or-minus-sigma-scheme branch. -/
def mean_ideal_range : ℚ × ℚ := (-813/100, -598/100)

/-- Hardcoded Acceptable band of the mean-plus-or-minus-sigma-scheme branch. -/
def mean_acceptable_range : ℚ × ℚ := (-921/100, -490/100)

/-- `reclassify_validity(row)` from `2_Analyzer.py`: keep `Extrapolated`
rows as they are, otherwise band the row's `snr_50` against the selected
`ideal_range` / `acceptable_range`. -/
def reclassify_validity (ideal_range acceptable_range : ℚ × ℚ)
    (row : SentenceSummary) : VLabel :=
  if row.validity = some VLabel.Extrapolated then VLabel.Extrapolated
  else if ideal_range.1 ≤ row.snr_50.getD 0 ∧ row.snr_50.getD 0 ≤ ideal_range.2
    then VLabel.Ideal
  else if acceptable_range.1 ≤ row.snr_50.getD 0 ∧
      row.snr_50.getD 0 ≤ acceptable_range.2 then VLabel.Acceptable
  else VLabel.Warning

/-- One row of `display_df` after
`display_df['validity'] = display_df.apply(reclassify_validity, axis=1)`:
only the validity column is replaced. -/
def reclassifyRow (ideal_range acceptable_range : ℚ × ℚ)
    (row : SentenceSummary) : SentenceSummary :=
  { row with validity := some (reclassify_validity ideal_range acceptable_range row) }

/-- The whole reclassified `display_df` (a copy of the analysis results with
the validity column recomputed row by row). -/
def reclassifyReport (ideal_range acceptable_range : ℚ × ℚ)
    (report : List SentenceSummary) : List SentenceSummary :=
  report.map (reclassifyRow ideal_range acceptable_range)

/-- `coef = (slope_pct_per_db / 100.0) * 4.0` from
`create_combined_psychometric_plot`. -/
noncomputable def reconstructedCoef (slope_pct : ℝ) : ℝ := slope_pct / 100 * 4

/-- `a = -coef * snr50` from `create_combined_psychometric_plot`. -/
noncomputable def reconstructedIntercept (slope_pct snr50 : ℝ) : ℝ :=
  -reconstructedCoef slope_pct * snr50

/-- `y_curve = 1.0 / (1.0 + np.exp(-(a + coef * x)))` from
`create_combined_psychometric_plot`. -/
noncomputable def reconstructedCurve (slope_pct snr50 x : ℝ) : ℝ :=
  1 / (1 + Real.exp (-(reconstructedIntercept slope_pct snr50 +
    reconstructedCoef slope_pct * x)))

/-- `snr_50 = -intercept / coef` of the fitter, over the reals. -/
noncomputable def fitterSnr50 (intercept coef : ℝ) : ℝ := -intercept / coef

/-- `slope = coef / 4 * 100` of the fitter, over the reals. -/
noncomputable def fitterSlope (coef : ℝ) : ℝ := coef / 4 * 100

/-- Modelled from the spec: the linear-interpolation quantile of a batch of
snr_50 values, used by the spec's dataset-adaptive quartile scheme
("compute quartiles Q1/Q3 over the current batch's snr_50 distribution");
no such computation exists in the source. -/
def specQuantile (batch : List ℚ) (p : ℚ) : ℚ :=
  match List.insertionSort (· ≤ ·) batch with
  | [] => 0
  | x :: xs =>
      (x :: xs).getD (⌊p * (xs.length : ℚ)⌋).toNat x +
        (p * (xs.length : ℚ) - ((⌊p * (xs.length : ℚ)⌋).toNat : ℚ)) *
          ((x :: xs).getD (min ((⌊p * (xs.length : ℚ)⌋).toNat + 1) xs.length) x -
            (x :: xs).getD (⌊p * (xs.length : ℚ)⌋).toNat x)

/-- Modelled from the spec: the dataset-adaptive quartile classification —
Ideal on `[Q1, Q3]`, Acceptable on `[Q1 - 0.5*IQR, Q3 + 0.5*IQR]`, else
Warning, with Q1/Q3 the quartiles of the current batch's snr_50 values. -/
def specAdaptiveQuartileClassify (batch : List ℚ) (snr : ℚ) : VLabel :=
  if specQuantile batch (1/4) ≤ snr ∧ snr ≤ specQuantile batch (3/4) then
    VLabel.Ideal
  else if specQuantile batch (1/4) -
        (specQuantile batch (3/4) - specQuantile batch (1/4)) / 2 ≤ snr ∧
      snr ≤ specQuantile batch (3/4) +
        (specQuantile batch (3/4) - specQuantile batch (1/4)) / 2 then
    VLabel.Acceptable
  else VLabel.Warning

/-- The parameter names of `create_combined_psychometric_plot` (the function
has no `**kwargs` catch-all). -/
def combinedPlotParams : List String :=
  ["sentence_ids", "include_logistic", "include_mean", "show_legend",
    "precomputed_results", "snr_range"]

/-- The keyword-argument names passed at the overlay call site in
`2_Analyzer.py`. -/
def analyzerOverlayKwargs : List String :=
  ["sentence_ids", "include_logistic", "include_mean", "show_legend",
    "precomputed_results", "snr_range", "ideal_range", "acceptable_range"]

/-- Python keyword binding for a function without a `**kwargs` parameter:
a keyword name that is not among the parameters raises `TypeError` before
the body runs; otherwise the call proceeds. -/
def pyBindKeywords (params kwargs : List String) : Except String Unit :=
  match kwargs.filter (fun k => ¬ params.contains k) with
  | [] => Except.ok ()
  | k :: _ =>
      Except.error ("TypeError: got an unexpected keyword argument " ++ k)

/-! Helper lemmas. -/

theorem mem_firstDedupAux {α : Type} [DecidableEq α] (seen l : List α) (a : α) :
    a ∈ firstDedupAux seen l ↔ a ∈ l ∧ a ∉ seen := by
  induction l generalizing seen with
  | nil => simp [firstDedupAux]
  | cons x xs ih =>
    by_cases hx : x ∈ seen
    · simp only [firstDedupAux, if_pos hx, ih, List.mem_cons]
      constructor
      · rintro ⟨h1, h2⟩
        exact ⟨Or.inr h1, h2⟩
      · rintro ⟨h1 | h1, h2⟩
        · exact absurd (h1 ▸ hx) h2
        · exact ⟨h1, h2⟩
    · simp only [firstDedupAux, if_neg hx, List.mem_cons, ih]
      constructor
      · rintro (rfl | ⟨h1, h2⟩)
        · exact ⟨Or.inl rfl, hx⟩
        · exact ⟨Or.inr h1, fun hs => h2 (Or.inr hs)⟩
      · rintro ⟨rfl | h1, h2⟩
        · exact Or.inl rfl
        · by_cases hax : a = x
          · exact Or.inl hax
          · exact Or.inr ⟨h1, fun hs => hs.elim hax h2⟩

theorem mem_firstDedup {α : Type} [DecidableEq α] (l : List α) (a : α) :
    a ∈ firstDedup l ↔ a ∈ l := by
  simp [firstDedup, mem_firstDedupAux]

theorem nodup_firstDedupAux {α : Type} [DecidableEq α] (seen l : List α) :
    (firstDedupAux seen l).Nodup := by
  induction l generalizing seen with
  | nil => simp [firstDedupAux]
  | cons x xs ih =>
    by_cases hx : x ∈ seen
    · simpa [firstDedupAux, hx] using ih seen
    · simp only [firstDedupAux, if_neg hx, List.nodup_cons]
      refine ⟨fun hmem => ?_, ih _⟩
      rw [mem_firstDedupAux] at hmem
      exact hmem.2 (List.mem_cons_self x seen)

theorem nodup_firstDedup {α : Type} [DecidableEq α] (l : List α) :
    (firstDedup l).Nodup :=
  nodup_firstDedupAux [] l

theorem length_aggData (data : List Row) :
    (aggData data).length = (firstDedup (data.map Row.snr_level)).length := by
  simp [aggData, List.length_insertionSort]

/-- Master case analysis of `estimate_snr50_for_sentence`: the five return
statements of the source, each with the guards that led to it. -/
theorem estimate_cases (solve : Solver) (data : List Row) :
    ((aggData data).length < 3 ∧
      estimate_snr50_for_sentence solve data =
        ⟨FitStatus.InsufficientData, none, none, none, none, aggData data⟩) ∨
    (¬ (aggData data).length < 3 ∧
      listMinD ((aggData data).map Prod.snd) =
        listMaxD ((aggData data).map Prod.snd) ∧
      estimate_snr50_for_sentence solve data =
        ⟨FitStatus.DegenerateData, none, none, none, none, aggData data⟩) ∨
    (¬ (aggData data).length < 3 ∧
      listMinD ((aggData data).map Prod.snd) ≠
        listMaxD ((aggData data).map Prod.snd) ∧
      ((∃ e, solve (expandTrials (aggData data)) = Except.error e ∧
          estimate_snr50_for_sentence solve data =
            ⟨FitStatus.Error e, none, none, some VLabel.VError, none,
              aggData data⟩) ∨
        (∃ intercept coef,
          solve (expandTrials (aggData data)) = Except.ok (intercept, coef) ∧
          ((|coef| < 1/1000000 ∧
            estimate_snr50_for_sentence solve data =
              ⟨FitStatus.ZeroSlope, none, none, none, some (intercept, coef),
                aggData data⟩) ∨
            (¬ |coef| < 1/1000000 ∧
            estimate_snr50_for_sentence solve data =
              ⟨FitStatus.Success, some (-intercept / coef),
                some (coef / 4 * 100),
                some (classifyValidity ((aggData data).map Prod.fst)
                  (-intercept / coef)),
                some (intercept, coef), aggData data⟩))))) := by
  by_cases h1 : (aggData data).length < 3
  · exact Or.inl ⟨h1, by rw [estimate_snr50_for_sentence, if_pos h1]⟩
  · by_cases h2 : listMinD ((aggData data).map Prod.snd) =
        listMaxD ((aggData data).map Prod.snd)
    · exact Or.inr (Or.inl ⟨h1, h2,
        by rw [estimate_snr50_for_sentence, if_neg h1, if_pos h2]⟩)
    · refine Or.inr (Or.inr ⟨h1, h2, ?_⟩)
      rcases hsol : solve (expandTrials (aggData data)) with e | p
      · refine Or.inl ⟨e, rfl, ?_⟩
        rw [estimate_snr50_for_sentence, if_neg h1, if_neg h2, hsol]
      · obtain ⟨intercept, coef⟩ := p
        refine Or.inr ⟨intercept, coef, rfl, ?_⟩
        by_cases hb : |coef| < 1/1000000
        · refine Or.inl ⟨hb, ?_⟩
          rw [estimate_snr50_for_sentence, if_neg h1, if_neg h2, hsol]
          exact if_pos hb
        · refine Or.inr ⟨hb, ?_⟩
          rw [estimate_snr50_for_sentence, if_neg h1, if_neg h2, hsol]
          exact if_neg hb

theorem pyRound_nonneg {q : ℚ} (h : 0 ≤ q) : 0 ≤ pyRound q := by
  have hf : (0 : ℤ) ≤ ⌊q⌋ := Int.floor_nonneg.mpr h
  unfold pyRound
  split_ifs <;> omega

theorem pyRound_le {q : ℚ} {n : ℤ} (h : q ≤ (n : ℚ)) : pyRound q ≤ n := by
  have hf : ⌊q⌋ ≤ n := by
    have := Int.floor_le_floor h
    simpa using this
  unfold pyRound
  split_ifs with h1 h2 h3
  · exact hf
  · rcases eq_or_lt_of_le hf with he | hlt
    · exfalso
      rw [he] at h2
      have : (n : ℚ) < q := by linarith
      exact absurd h (not_le.mpr this)
    · omega
  · exact hf
  · rcases eq_or_lt_of_le hf with he | hlt
    · exfalso
      have h2' : q - (⌊q⌋ : ℚ) = 1/2 := le_antisymm (not_lt.mp h2) (not_lt.mp h1)
      rw [he] at h2'
      have : (n : ℚ) < q := by linarith
      exact absurd h (not_le.mpr this)
    · omega

theorem countP_replicate {α : Type} (p : α → Bool) (n : ℕ) (a : α) :
    (List.replicate n a).countP p = if p a then n else 0 := by
  induction n with
  | zero => simp
  | succ n ih =>
    rw [List.replicate_succ, List.countP_cons, ih]
    by_cases h : p a <;> simp [h]

theorem length_bernoulliBlock (p : ℚ × ℚ) (h1 : p.2 ≤ 1) :
    (bernoulliBlock p).length = 100 := by
  have hle : (pyRound (p.2 * 100)).toNat ≤ 100 := by
    rw [Int.toNat_le]
    exact pyRound_le (by push_cast; linarith)
  simp [bernoulliBlock, List.length_replicate]
  omega

theorem classifyValidity_mem (levels : List ℚ) (x : ℚ) :
    classifyValidity levels x = VLabel.Ideal ∨
    classifyValidity levels x = VLabel.Acceptable ∨
    classifyValidity levels x = VLabel.Warning ∨
    classifyValidity levels x = VLabel.Extrapolated := by
  unfold classifyValidity
  split_ifs <;> simp

theorem classifyValidity_eq (levels : List ℚ) (x : ℚ) :
    classifyValidity levels x =
      if listMinD levels - 5 ≤ x ∧ x ≤ listMaxD levels + 5 then
        (if 1/2 ≤ x ∧ x ≤ 7/2 then VLabel.Ideal
          else if -1 ≤ x ∧ x ≤ 5 then VLabel.Acceptable
          else VLabel.Warning)
      else VLabel.Extrapolated := by
  unfold classifyValidity
  by_cases h : listMinD levels - 5 ≤ x ∧ x ≤ listMaxD levels + 5
  · rw [if_neg (not_not_intro h), if_pos h]
  · rw [if_pos h, if_neg h]

/-! Concrete fixtures used by the witnesses and counterexamples. -/

/-- A well-behaved single-sentence dataset: three distinct snr levels with
strictly increasing mean correct rates. -/
def wRows : List Row :=
  [⟨1, "s1", -10, 1, 1/10⟩, ⟨1, "s1", -5, 3, 1/2⟩, ⟨1, "s1", 0, 5, 9/10⟩]

/-- A dataset with exactly two distinct snr levels. -/
def w2Rows : List Row :=
  [⟨1, "s1", -5, 1, 1/10⟩, ⟨1, "s1", 0, 5, 9/10⟩]

/-- A dataset with three distinct snr levels and a flat correct rate. -/
def wFlatRows : List Row :=
  [⟨1, "s1", -5, 3, 1/2⟩, ⟨1, "s1", 0, 3, 1/2⟩, ⟨1, "s1", 5, 3, 1/2⟩]

/-- A two-sentence batch: sentence 1 is fittable, sentence 2 has a single
snr level and is excluded. -/
def w8Rows : List Row :=
  [⟨1, "s1", -10, 1, 1/10⟩, ⟨1, "s1", -5, 3, 1/2⟩, ⟨1, "s1", 0, 5, 9/10⟩,
    ⟨2, "s2", 0, 3, 1/2⟩]

/-- A solver run that returns intercept -2 and coefficient 1
(so snr_50 = 2, slope = 25). -/
def okSolve : Solver := fun _ => Except.ok (-2, 1)

/-- A solver run that returns a coefficient below the 1e-6 guard. -/
def zeroSolve : Solver := fun _ => Except.ok (1, 0)

/-- A solver run that raises (as scikit-learn does when the expanded trials
contain a single class). -/
def failSolve : Solver := fun _ => Except.error "solver raised"

/-- A non-Extrapolated summary row with snr_50 = 0. -/
def wWarnRow : SentenceSummary :=
  ⟨7, "s7", some 0, some 10, some VLabel.Warning, 3, 1, 3, 3⟩

/-- An Extrapolated summary row. -/
def wExRow : SentenceSummary :=
  ⟨9, "s9", some 20, some 4, some VLabel.Extrapolated, 3, 1, 3, 3⟩

theorem aggData_wRows : aggData wRows = [(-10, 1/10), (-5, 1/2), (0, 9/10)] := by
  norm_num [aggData, firstDedup, firstDedupAux, List.insertionSort,
    List.orderedInsert, List.filter, wRows]

theorem aggData_w2Rows : aggData w2Rows = [(-5, 1/10), (0, 9/10)] := by
  norm_num [aggData, firstDedup, firstDedupAux, List.insertionSort,
    List.orderedInsert, List.filter, w2Rows]

theorem aggData_wFlatRows : aggData wFlatRows = [(-5, 1/2), (0, 1/2), (5, 1/2)] := by
  norm_num [aggData, firstDedup, firstDedupAux, List.insertionSort,
    List.orderedInsert, List.filter, wFlatRows]

/-! Claim theorems. -/

/-- C2: for every Success fit, with snr_min and snr_max the minimum and maximum
snr_level among the aggregated points actually used, an snr_50 outside the
envelope [snr_min - 5, snr_max + 5] is Extrapolated; otherwise the fixed bands
[0.5, 3.5] give Ideal and [-1.0, 5.0] give Acceptable, else Warning; and
snr_50 = 2.0 in-envelope is Ideal, 4.0 Acceptable, 8.0 in-envelope Warning,
and 20.0 with tested range [-10, 10] Extrapolated. -/
theorem C2_success_validity_banding (solve : Solver) (data : List Row) (v : ℚ)
    (hv : (estimate_snr50_for_sentence solve data).snr_50 = some v) :
    (estimate_snr50_for_sentence solve data).status = FitStatus.Success ∧
    (estimate_snr50_for_sentence solve data).validity =
      some (if listMinD ((aggData data).map Prod.fst) - 5 ≤ v ∧
              v ≤ listMaxD ((aggData data).map Prod.fst) + 5 then
              (if 1/2 ≤ v ∧ v ≤ 7/2 then VLabel.Ideal
                else if -1 ≤ v ∧ v ≤ 5 then VLabel.Acceptable
                else VLabel.Warning)
            else VLabel.Extrapolated) ∧
    classifyValidity [-10, 10] 2 = VLabel.Ideal ∧
    classifyValidity [-10, 10] 4 = VLabel.Acceptable ∧
    classifyValidity [-10, 10] 8 = VLabel.Warning ∧
    classifyValidity [-10, 10] 20 = VLabel.Extrapolated := by
  have hex1 : classifyValidity [-10, 10] 2 = VLabel.Ideal := by
    norm_num [classifyValidity, listMinD, listMaxD, min_def, max_def]
  have hex2 : classifyValidity [-10, 10] 4 = VLabel.Acceptable := by
    norm_num [classifyValidity, listMinD, listMaxD, min_def, max_def]
  have hex3 : classifyValidity [-10, 10] 8 = VLabel.Warning := by
    norm_num [classifyValidity, listMinD, listMaxD, min_def, max_def]
  have hex4 : classifyValidity [-10, 10] 20 = VLabel.Extrapolated := by
    norm_num [classifyValidity, listMinD, listMaxD, min_def, max_def]
  rcases estimate_cases solve data with ⟨_, he⟩ | ⟨_, _, he⟩ |
    ⟨_, _, ⟨e, _, he⟩ | ⟨a, b, _, ⟨_, he⟩ | ⟨hb, he⟩⟩⟩
  · rw [he] at hv
    simp at hv
  · rw [he] at hv
    simp at hv
  · rw [he] at hv
    simp at hv
  · rw [he] at hv
    simp at hv
  · rw [he] at hv
    simp only [] at hv
    rw [Option.some_inj] at hv
    subst hv
    rw [he]
    refine ⟨rfl, ?_, hex1, hex2, hex3, hex4⟩
    show some (classifyValidity ((aggData data).map Prod.fst) (-a / b)) = _
    rw [classifyValidity_eq]

/-- C2 witness: a concrete three-level dataset and a solver returning
intercept -2 and coefficient 1, so the fit succeeds with snr_50 = 2 and is
classified Ideal. -/
theorem C2_witness :
    (estimate_snr50_for_sentence okSolve wRows).snr_50 = some 2 ∧
    (estimate_snr50_for_sentence okSolve wRows).status = FitStatus.Success ∧
    (estimate_snr50_for_sentence okSolve wRows).validity = some VLabel.Ideal := by
  have hv : (estimate_snr50_for_sentence okSolve wRows).snr_50 = some 2 := by
    norm_num [estimate_snr50_for_sentence, aggData, firstDedup, firstDedupAux,
      List.insertionSort, List.orderedInsert, List.filter, okSolve, wRows,
      listMinD, listMaxD, min_def, max_def]
  have h := C2_success_validity_banding okSolve wRows 2 hv
  refine ⟨hv, h.1, ?_⟩
  rw [h.2.1, aggData_wRows]
  norm_num [listMinD, listMaxD, min_def, max_def]

/-- C3: fewer than 3 distinct snr levels gives InsufficientData with snr_50
and slope absent and the aggregated points carried through; at least 3 with a
flat mean correct rate gives DegenerateData; at least 3 with varying rates
proceeds to the fit. -/
theorem C3_data_guards (solve : Solver) (data : List Row) :
    ((firstDedup (data.map Row.snr_level)).length < 3 →
      estimate_snr50_for_sentence solve data =
        ⟨FitStatus.InsufficientData, none, none, none, none, aggData data⟩) ∧
    (3 ≤ (firstDedup (data.map Row.snr_level)).length →
      listMinD ((aggData data).map Prod.snd) =
        listMaxD ((aggData data).map Prod.snd) →
      estimate_snr50_for_sentence solve data =
        ⟨FitStatus.DegenerateData, none, none, none, none, aggData data⟩) ∧
    (3 ≤ (firstDedup (data.map Row.snr_level)).length →
      listMinD ((aggData data).map Prod.snd) ≠
        listMaxD ((aggData data).map Prod.snd) →
      ((estimate_snr50_for_sentence solve data).status = FitStatus.Success ∨
        (estimate_snr50_for_sentence solve data).status = FitStatus.ZeroSlope ∨
        ∃ msg,
          (estimate_snr50_for_sentence solve data).status =
            FitStatus.Error msg)) := by
  have hlen := length_aggData data
  rcases estimate_cases solve data with ⟨hc, he⟩ | ⟨hc, hm, he⟩ |
    ⟨hc, hm, hrest⟩ <;> rw [hlen] at hc
  · exact ⟨fun _ => he, fun h3 _ => absurd h3 (by omega),
      fun h3 _ => absurd h3 (by omega)⟩
  · exact ⟨fun h1 => absurd h1 hc, fun _ _ => he, fun _ hne => absurd hm hne⟩
  · refine ⟨fun h1 => absurd h1 hc, fun _ heq => absurd heq hm, fun _ _ => ?_⟩
    rcases hrest with ⟨e, _, he⟩ | ⟨a, b, _, ⟨_, he⟩ | ⟨_, he⟩⟩
    · rw [he]
      exact Or.inr (Or.inr ⟨e, rfl⟩)
    · rw [he]
      exact Or.inr (Or.inl rfl)
    · rw [he]
      exact Or.inl rfl

/-- C3 witness: exactly two distinct levels give InsufficientData, three flat
levels give DegenerateData, and three varying levels proceed to the fit. -/
theorem C3_witness :
    estimate_snr50_for_sentence okSolve w2Rows =
      ⟨FitStatus.InsufficientData, none, none, none, none, aggData w2Rows⟩ ∧
    estimate_snr50_for_sentence okSolve wFlatRows =
      ⟨FitStatus.DegenerateData, none, none, none, none, aggData wFlatRows⟩ ∧
    ((estimate_snr50_for_sentence okSolve wRows).status = FitStatus.Success ∨
      (estimate_snr50_for_sentence okSolve wRows).status = FitStatus.ZeroSlope ∨
      ∃ msg,
        (estimate_snr50_for_sentence okSolve wRows).status =
          FitStatus.Error msg) := by
  refine ⟨(C3_data_guards okSolve w2Rows).1 ?_,
    (C3_data_guards okSolve wFlatRows).2.1 ?_ ?_,
    (C3_data_guards okSolve wRows).2.2 ?_ ?_⟩
  · norm_num [firstDedup, firstDedupAux, w2Rows]
  · norm_num [firstDedup, firstDedupAux, wFlatRows]
  · rw [aggData_wFlatRows]
    norm_num [listMinD, listMaxD, min_def, max_def]
  · norm_num [firstDedup, firstDedupAux, wRows]
  · rw [aggData_wRows]
    norm_num [listMinD, listMaxD, min_def, max_def]

/-- C4: with the fitted intercept a and coefficient b, |b| < 1e-6 yields
ZeroSlope with snr_50 and slope absent and the fitted model retained (the
division -a/b is not performed); otherwise the fit succeeds with
snr_50 = -a/b and slope = (b/4)*100. -/
theorem C4_zero_slope_guard (solve : Solver) (data : List Row) (a b : ℚ)
    (h3 : ¬ (aggData data).length < 3)
    (hvar : listMinD ((aggData data).map Prod.snd) ≠
      listMaxD ((aggData data).map Prod.snd))
    (hok : solve (expandTrials (aggData data)) = Except.ok (a, b)) :
    (|b| < 1/1000000 →
      estimate_snr50_for_sentence solve data =
        ⟨FitStatus.ZeroSlope, none, none, none, some (a, b), aggData data⟩) ∧
    (¬ |b| < 1/1000000 →
      (estimate_snr50_for_sentence solve data).status = FitStatus.Success ∧
      (estimate_snr50_for_sentence solve data).snr_50 = some (-a / b) ∧
      (estimate_snr50_for_sentence solve data).slope = some (b / 4 * 100) ∧
      (estimate_snr50_for_sentence solve data).model = some (a, b)) := by
  constructor <;> intro hb
  · rw [estimate_snr50_for_sentence, if_neg h3, if_neg hvar, hok]
    exact if_pos hb
  · have he : estimate_snr50_for_sentence solve data =
        ⟨FitStatus.Success, some (-a / b), some (b / 4 * 100),
          some (classifyValidity ((aggData data).map Prod.fst) (-a / b)),
          some (a, b), aggData data⟩ := by
      rw [estimate_snr50_for_sentence, if_neg h3, if_neg hvar, hok]
      exact if_neg hb
    rw [he]
    exact ⟨rfl, rfl, rfl, rfl⟩

/-- C4 witness: a solver returning coefficient 0 gives ZeroSlope on the
concrete dataset; a solver returning intercept -2, coefficient 1 gives
snr_50 = -(-2)/1. -/
theorem C4_witness :
    estimate_snr50_for_sentence zeroSolve wRows =
      ⟨FitStatus.ZeroSlope, none, none, none, some (1, 0), aggData wRows⟩ ∧
    (estimate_snr50_for_sentence okSolve wRows).snr_50 = some (-(-2) / 1) := by
  have h3 : ¬ (aggData wRows).length < 3 := by
    rw [aggData_wRows]
    norm_num
  have hvar : listMinD ((aggData wRows).map Prod.snd) ≠
      listMaxD ((aggData wRows).map Prod.snd) := by
    rw [aggData_wRows]
    norm_num [listMinD, listMaxD, min_def, max_def]
  exact ⟨(C4_zero_slope_guard zeroSolve wRows 1 0 h3 hvar rfl).1 (by norm_num),
    ((C4_zero_slope_guard okSolve wRows (-2) 1 h3 hvar rfl).2
      (by norm_num)).2.1⟩

/-- C5: the Bernoulli-trial expansion synthesizes exactly 100 binary trials
per aggregated point, round(rate*100) of them successes and the remainder
failures, with no stochastic sampling, and the fitter returns identical
snr_50 and slope on identical input. -/
theorem C5_deterministic_expansion (agg : List (ℚ × ℚ))
    (hr : ∀ p ∈ agg, 0 ≤ p.2 ∧ p.2 ≤ 1) :
    (expandTrials agg).length = 100 * agg.length ∧
    (∀ p ∈ agg,
      (bernoulliBlock p).length = 100 ∧
      (bernoulliBlock p).countP (fun t => t.2 = 1) =
        (pyRound (p.2 * 100)).toNat ∧
      (bernoulliBlock p).countP (fun t => t.2 = 0) =
        100 - (pyRound (p.2 * 100)).toNat) ∧
    (∀ (solve : Solver) (data : List Row),
      (estimate_snr50_for_sentence solve data).snr_50 =
        (estimate_snr50_for_sentence solve data).snr_50 ∧
      (estimate_snr50_for_sentence solve data).slope =
        (estimate_snr50_for_sentence solve data).slope) := by
  have hlen : ∀ l : List (ℚ × ℚ), (∀ p ∈ l, 0 ≤ p.2 ∧ p.2 ≤ 1) →
      (expandTrials l).length = 100 * l.length := by
    intro l
    induction l with
    | nil =>
      intro _
      simp [expandTrials]
    | cons q qs ih =>
      intro hl
      have hblock := length_bernoulliBlock q (hl q (List.mem_cons_self q qs)).2
      have hrest := ih (fun p hp => hl p (List.mem_cons_of_mem _ hp))
      simp only [expandTrials] at hrest ⊢
      rw [List.flatMap_cons, List.length_append, hblock, hrest,
        List.length_cons]
      ring
  refine ⟨hlen agg hr, fun p hp => ?_, fun solve data => ⟨rfl, rfl⟩⟩
  have hp2 := hr p hp
  refine ⟨length_bernoulliBlock p hp2.2, ?_, ?_⟩
  · rw [bernoulliBlock, List.countP_append, countP_replicate, countP_replicate]
    simp
  · rw [bernoulliBlock, List.countP_append, countP_replicate, countP_replicate]
    simp

/-- C5 witness: a concrete two-point aggregate; the expansion has 200 trials
and the half-rate point expands to 100 trials with 50 successes. -/
theorem C5_witness :
    (expandTrials [((0 : ℚ), (1 : ℚ)/2), (5, 1)]).length =
      100 * ([((0 : ℚ), (1 : ℚ)/2), (5, 1)] : List (ℚ × ℚ)).length ∧
    (bernoulliBlock ((0 : ℚ), (1 : ℚ)/2)).length = 100 ∧
    (bernoulliBlock ((0 : ℚ), (1 : ℚ)/2)).countP (fun t => t.2 = 1) =
      (pyRound ((1 : ℚ)/2 * 100)).toNat := by
  have hr : ∀ p ∈ ([((0 : ℚ), (1 : ℚ)/2), (5, 1)] : List (ℚ × ℚ)),
      0 ≤ p.2 ∧ p.2 ≤ 1 := by
    intro p hp
    simp only [List.mem_cons, List.not_mem_nil, or_false] at hp
    rcases hp with rfl | rfl <;> norm_num
  have h := C5_deterministic_expansion [((0 : ℚ), (1 : ℚ)/2), (5, 1)] hr
  have hm : ((0 : ℚ), (1 : ℚ)/2) ∈ ([((0 : ℚ), (1 : ℚ)/2), (5, 1)] :
      List (ℚ × ℚ)) := List.mem_cons_self _ _
  exact ⟨h.1, (h.2.1 _ hm).1, (h.2.1 _ hm).2.1⟩

/-- C1 counterexample: the claim says the adaptive Ideal band is computed from
the current batch's snr_50 distribution, so a one-row batch with snr_50 = 0
would have Q1 = Q3 = 0 and the row would be labeled Ideal; the code instead
classifies against the hardcoded quartile bands and labels the row Warning. -/
theorem C1_counterexample :
    (reclassifyReport iqr_ideal_range iqr_acceptable_range [wWarnRow]).map
      SentenceSummary.validity = [some VLabel.Warning] ∧
    specAdaptiveQuartileClassify [0] 0 = VLabel.Ideal := by
  constructor
  · norm_num [reclassifyReport, reclassifyRow, reclassify_validity, wWarnRow,
      iqr_ideal_range, iqr_acceptable_range]
    exact fun h => nomatch h
  · norm_num [specAdaptiveQuartileClassify, specQuantile, List.insertionSort,
      List.orderedInsert]

/-- C1 (amended): under the dataset-adaptive scheme selection the bands are
fixed precomputed constants — quartile variant Ideal [-8.56, -5.57] and
Acceptable [-10.05, -4.07], mean variant Ideal [-8.13, -5.98] and Acceptable
[-9.21, -4.90] — not recomputed from the current batch; each non-Extrapolated
sentence is labeled Ideal if its snr_50 lies in the Ideal band, Acceptable if
it lies in the Acceptable band, and Warning otherwise. -/
theorem C1_fixed_adaptive_bands (report : List SentenceSummary) :
    reclassifyReport iqr_ideal_range iqr_acceptable_range report =
      report.map (fun row =>
        { row with validity := some (
            if row.validity = some VLabel.Extrapolated then VLabel.Extrapolated
            else if -856/100 ≤ row.snr_50.getD 0 ∧
                row.snr_50.getD 0 ≤ -557/100 then VLabel.Ideal
            else if -1005/100 ≤ row.snr_50.getD 0 ∧
                row.snr_50.getD 0 ≤ -407/100 then VLabel.Acceptable
            else VLabel.Warning) }) ∧
    reclassifyReport mean_ideal_range mean_acceptable_range report =
      report.map (fun row =>
        { row with validity := some (
            if row.validity = some VLabel.Extrapolated then VLabel.Extrapolated
            else if -813/100 ≤ row.snr_50.getD 0 ∧
                row.snr_50.getD 0 ≤ -598/100 then VLabel.Ideal
            else if -921/100 ≤ row.snr_50.getD 0 ∧
                row.snr_50.getD 0 ≤ -490/100 then VLabel.Acceptable
            else VLabel.Warning) }) := by
  exact ⟨rfl, rfl⟩

/-- C6: reconstructing the logistic curve from (snr_50, slope) alone via
b = (slope/100)*4, a = -b*snr_50, P(x) = 1/(1+exp(-(a+b*x))) recovers the
original coefficient and intercept exactly and satisfies P(snr_50) = 1/2,
in particular within the 1e-6 tolerance. -/
theorem C6_round_trip (intercept coef : ℝ) (h : 1/1000000 ≤ |coef|) :
    reconstructedCoef (fitterSlope coef) = coef ∧
    reconstructedIntercept (fitterSlope coef) (fitterSnr50 intercept coef) =
      intercept ∧
    reconstructedCurve (fitterSlope coef) (fitterSnr50 intercept coef)
      (fitterSnr50 intercept coef) = 1/2 ∧
    |reconstructedCurve (fitterSlope coef) (fitterSnr50 intercept coef)
      (fitterSnr50 intercept coef) - 1/2| ≤ 1/1000000 := by
  have hb : coef ≠ 0 := by
    intro h0
    rw [h0] at h
    norm_num at h
  have hcoef : reconstructedCoef (fitterSlope coef) = coef := by
    unfold reconstructedCoef fitterSlope
    ring
  have hint : reconstructedIntercept (fitterSlope coef)
      (fitterSnr50 intercept coef) = intercept := by
    unfold reconstructedIntercept fitterSnr50
    rw [hcoef]
    field_simp
  have hzero : reconstructedIntercept (fitterSlope coef)
        (fitterSnr50 intercept coef) +
      reconstructedCoef (fitterSlope coef) * fitterSnr50 intercept coef = 0 := by
    unfold reconstructedIntercept
    ring
  have hcurve : reconstructedCurve (fitterSlope coef)
      (fitterSnr50 intercept coef) (fitterSnr50 intercept coef) = 1/2 := by
    unfold reconstructedCurve
    rw [hzero]
    rw [neg_zero, Real.exp_zero]
    norm_num
  exact ⟨hcoef, hint, hcurve, by rw [hcurve]; norm_num⟩

/-- C6 witness: a fit with intercept -4 and coefficient 2 (snr_50 = 2,
slope = 50) round-trips: the reconstructed coefficient is 2 and the
reconstructed curve crosses 1/2 at snr_50. -/
theorem C6_witness :
    ((1 : ℝ)/1000000 ≤ |(2 : ℝ)|) ∧
    reconstructedCoef (fitterSlope 2) = 2 ∧
    reconstructedIntercept (fitterSlope 2) (fitterSnr50 (-4) 2) = -4 ∧
    reconstructedCurve (fitterSlope 2) (fitterSnr50 (-4) 2)
      (fitterSnr50 (-4) 2) = 1/2 := by
  have h : (1 : ℝ)/1000000 ≤ |(2 : ℝ)| := by norm_num
  have hc := C6_round_trip (-4) 2 h
  exact ⟨h, hc.1, hc.2.1, hc.2.2.1⟩

/-- C7: reclassification — with either scheme, re-invocable on the same
report — changes only the validity label: every other field of every row is
unchanged, and an Extrapolated row stays Extrapolated under every scheme. -/
theorem C7_reclassify_frame (ideal_range acceptable_range : ℚ × ℚ)
    (report : List SentenceSummary) (row : SentenceSummary) :
    (reclassifyReport ideal_range acceptable_range report).map
        SentenceSummary.sentence_id = report.map SentenceSummary.sentence_id ∧
    (reclassifyReport ideal_range acceptable_range report).map
        SentenceSummary.full_sentence =
      report.map SentenceSummary.full_sentence ∧
    (reclassifyReport ideal_range acceptable_range report).map
        SentenceSummary.snr_50 = report.map SentenceSummary.snr_50 ∧
    (reclassifyReport ideal_range acceptable_range report).map
        SentenceSummary.slope = report.map SentenceSummary.slope ∧
    (reclassifyReport ideal_range acceptable_range report).map
        SentenceSummary.total_score_sum =
      report.map SentenceSummary.total_score_sum ∧
    (reclassifyReport ideal_range acceptable_range report).map
        SentenceSummary.avg_score = report.map SentenceSummary.avg_score ∧
    (reclassifyReport ideal_range acceptable_range report).map
        SentenceSummary.data_points = report.map SentenceSummary.data_points ∧
    (reclassifyReport ideal_range acceptable_range report).map
        SentenceSummary.snr_levels = report.map SentenceSummary.snr_levels ∧
    (row.validity = some VLabel.Extrapolated →
      (reclassifyRow ideal_range acceptable_range row).validity =
        some VLabel.Extrapolated) := by
  refine ⟨?_, ?_, ?_, ?_, ?_, ?_, ?_, ?_, fun hex => ?_⟩
  · rw [reclassifyReport, List.map_map]
    exact List.map_congr_left fun a _ => rfl
  · rw [reclassifyReport, List.map_map]
    exact List.map_congr_left fun a _ => rfl
  · rw [reclassifyReport, List.map_map]
    exact List.map_congr_left fun a _ => rfl
  · rw [reclassifyReport, List.map_map]
    exact List.map_congr_left fun a _ => rfl
  · rw [reclassifyReport, List.map_map]
    exact List.map_congr_left fun a _ => rfl
  · rw [reclassifyReport, List.map_map]
    exact List.map_congr_left fun a _ => rfl
  · rw [reclassifyReport, List.map_map]
    exact List.map_congr_left fun a _ => rfl
  · rw [reclassifyReport, List.map_map]
    exact List.map_congr_left fun a _ => rfl
  · simp [reclassifyRow, reclassify_validity, hex]

/-- C7 witness: a concrete Extrapolated row under the quartile scheme keeps
both its non-validity fields and its Extrapolated label. -/
theorem C7_witness :
    (reclassifyReport iqr_ideal_range iqr_acceptable_range [wExRow]).map
      SentenceSummary.snr_50 = [wExRow].map SentenceSummary.snr_50 ∧
    wExRow.validity = some VLabel.Extrapolated ∧
    (reclassifyRow iqr_ideal_range iqr_acceptable_range wExRow).validity =
      some VLabel.Extrapolated := by
  have h := C7_reclassify_frame iqr_ideal_range iqr_acceptable_range
    [wExRow] wExRow
  exact ⟨h.2.2.1, rfl, h.2.2.2.2.2.2.2.2 rfl⟩

theorem analyze_map_ids (solve : Solver) (data : List Row) (ids : List ℕ) :
    (ids.filterMap (summarize solve data)).map SentenceSummary.sentence_id =
      ids.filter (fun sid =>
        (estimate_snr50_for_sentence solve
          (data.filter (fun r => r.sentence_id = sid))).status =
          FitStatus.Success) := by
  induction ids with
  | nil => rfl
  | cons sid rest ih =>
    rw [List.filterMap_cons, List.filter_cons, summarize]
    by_cases h : (estimate_snr50_for_sentence solve
        (data.filter (fun r => r.sentence_id = sid))).status = FitStatus.Success
    · rw [if_pos h]
      simp [h, ih]
    · rw [if_neg h]
      simp [h, ih]

/-- C8: the Batch Analyzer processes the distinct sentence ids in
first-encountered order, appends exactly one SentenceSummary per Success
sentence, silently drops every non-Success sentence without halting the
batch, and the caller-computed excluded set is exactly the known ids minus
the analyzed ids. -/
theorem C8_batch_exclusion (solve : Solver) (data : List Row) :
    (analyze_all_sentences solve data).map SentenceSummary.sentence_id =
      (firstDedup (data.map Row.sentence_id)).filter (fun sid =>
        (estimate_snr50_for_sentence solve
          (data.filter (fun r => r.sentence_id = sid))).status =
          FitStatus.Success) ∧
    ((analyze_all_sentences solve data).map SentenceSummary.sentence_id).Nodup ∧
    (∀ sid : ℕ, sid ∈ excluded_ids solve data ↔
      (sid ∈ data.map Row.sentence_id ∧ sid ∉ analyzedIds solve data)) := by
  have hmap := analyze_map_ids solve data (firstDedup (data.map Row.sentence_id))
  refine ⟨hmap, ?_, fun sid => ?_⟩
  · rw [analyze_all_sentences, analyze_map_ids]
    exact (nodup_firstDedup _).filter _
  · rw [excluded_ids, List.mem_insertionSort, List.mem_filter]
    simp only [mem_firstDedup, decide_eq_true_eq]

/-- C8 witness: in a batch where sentence 1 fits and sentence 2 has a single
snr level, the analyzed ids are the Success subset of the distinct ids in
first-encountered order, and id 2's exclusion is the set difference. -/
theorem C8_witness :
    (analyze_all_sentences okSolve w8Rows).map SentenceSummary.sentence_id =
      (firstDedup (w8Rows.map Row.sentence_id)).filter (fun sid =>
        (estimate_snr50_for_sentence okSolve
          (w8Rows.filter (fun r => r.sentence_id = sid))).status =
          FitStatus.Success) ∧
    (2 ∈ excluded_ids okSolve w8Rows ↔
      (2 ∈ w8Rows.map Row.sentence_id ∧ 2 ∉ analyzedIds okSolve w8Rows)) :=
  ⟨(C8_batch_exclusion okSolve w8Rows).1,
    (C8_batch_exclusion okSolve w8Rows).2.2 2⟩

/-- C9 counterexample: when the solver raises, the source's except branch
returns a non-Success result whose validity key is present (the string
Error), refuting "validity is present only when status is Success". -/
theorem C9_counterexample :
    (estimate_snr50_for_sentence failSolve wRows).status ≠ FitStatus.Success ∧
    (estimate_snr50_for_sentence failSolve wRows).validity ≠ none ∧
    (estimate_snr50_for_sentence failSolve wRows).validity =
      some VLabel.VError := by
  have h3 : ¬ (aggData wRows).length < 3 := by
    rw [aggData_wRows]
    norm_num
  have hvar : listMinD ((aggData wRows).map Prod.snd) ≠
      listMaxD ((aggData wRows).map Prod.snd) := by
    rw [aggData_wRows]
    norm_num [listMinD, listMaxD, min_def, max_def]
  have he : estimate_snr50_for_sentence failSolve wRows =
      ⟨FitStatus.Error "solver raised", none, none, some VLabel.VError, none,
        aggData wRows⟩ := by
    rw [estimate_snr50_for_sentence, if_neg h3, if_neg hvar]
    rfl
  rw [he]
  refine ⟨?_, ?_, rfl⟩
  · intro h
    simp at h
  · intro h
    simp at h

/-- C9 (amended): on Success, snr_50, slope and validity are all present and
the validity value is one of Ideal, Acceptable, Warning, Extrapolated; on
InsufficientData, DegenerateData and ZeroSlope they are all absent; on an
exception Error status, snr_50 and slope are absent but validity is present
with the value Error. -/
theorem C9_field_presence (solve : Solver) (data : List Row) :
    ((estimate_snr50_for_sentence solve data).status = FitStatus.Success →
      ((∃ x, (estimate_snr50_for_sentence solve data).snr_50 = some x) ∧
        (∃ y, (estimate_snr50_for_sentence solve data).slope = some y) ∧
        (∃ v, (estimate_snr50_for_sentence solve data).validity = some v ∧
          (v = VLabel.Ideal ∨ v = VLabel.Acceptable ∨ v = VLabel.Warning ∨
            v = VLabel.Extrapolated)))) ∧
    (((estimate_snr50_for_sentence solve data).status =
        FitStatus.InsufficientData ∨
      (estimate_snr50_for_sentence solve data).status =
        FitStatus.DegenerateData ∨
      (estimate_snr50_for_sentence solve data).status = FitStatus.ZeroSlope) →
      ((estimate_snr50_for_sentence solve data).snr_50 = none ∧
        (estimate_snr50_for_sentence solve data).slope = none ∧
        (estimate_snr50_for_sentence solve data).validity = none)) ∧
    (∀ msg,
      (estimate_snr50_for_sentence solve data).status = FitStatus.Error msg →
      ((estimate_snr50_for_sentence solve data).snr_50 = none ∧
        (estimate_snr50_for_sentence solve data).slope = none ∧
        (estimate_snr50_for_sentence solve data).validity =
          some VLabel.VError)) := by
  rcases estimate_cases solve data with ⟨_, he⟩ | ⟨_, _, he⟩ |
    ⟨_, _, ⟨e, _, he⟩ | ⟨a, b, _, ⟨_, he⟩ | ⟨_, he⟩⟩⟩ <;> rw [he]
  · refine ⟨fun hs => ?_, fun _ => ⟨rfl, rfl, rfl⟩, fun msg hm => ?_⟩
    · simp at hs
    · simp at hm
  · refine ⟨fun hs => ?_, fun _ => ⟨rfl, rfl, rfl⟩, fun msg hm => ?_⟩
    · simp at hs
    · simp at hm
  · refine ⟨fun hs => ?_, fun hn => ?_, fun msg hm => ⟨rfl, rfl, rfl⟩⟩
    · simp at hs
    · rcases hn with h | h | h <;> simp at h
  · refine ⟨fun hs => ?_, fun _ => ⟨rfl, rfl, rfl⟩, fun msg hm => ?_⟩
    · simp at hs
    · simp at hm
  · refine ⟨fun _ => ⟨⟨-a / b, rfl⟩, ⟨b / 4 * 100, rfl⟩,
      ⟨classifyValidity ((aggData data).map Prod.fst) (-a / b), rfl,
        classifyValidity_mem _ _⟩⟩, fun hn => ?_, fun msg hm => ?_⟩
    · rcases hn with h | h | h <;> simp at h
    · simp at hm

/-- C9 witness: on the concrete dataset, a two-level input leaves all three
fields absent, a raising solver leaves validity present with value Error,
and a successful fit presents all three fields. -/
theorem C9_witness :
    ((estimate_snr50_for_sentence okSolve w2Rows).snr_50 = none ∧
      (estimate_snr50_for_sentence okSolve w2Rows).slope = none ∧
      (estimate_snr50_for_sentence okSolve w2Rows).validity = none) ∧
    ((estimate_snr50_for_sentence failSolve wRows).snr_50 = none ∧
      (estimate_snr50_for_sentence failSolve wRows).slope = none ∧
      (estimate_snr50_for_sentence failSolve wRows).validity =
        some VLabel.VError) ∧
    (∃ v, (estimate_snr50_for_sentence okSolve wRows).validity = some v ∧
      (v = VLabel.Ideal ∨ v = VLabel.Acceptable ∨ v = VLabel.Warning ∨
        v = VLabel.Extrapolated)) := by
  have h3 : ¬ (aggData wRows).length < 3 := by
    rw [aggData_wRows]
    norm_num
  have hvar : listMinD ((aggData wRows).map Prod.snd) ≠
      listMaxD ((aggData wRows).map Prod.snd) := by
    rw [aggData_wRows]
    norm_num [listMinD, listMaxD, min_def, max_def]
  have h2 : (estimate_snr50_for_sentence okSolve w2Rows).status =
      FitStatus.InsufficientData := by
    have hlt : (aggData w2Rows).length < 3 := by
      rw [aggData_w2Rows]
      norm_num
    rw [estimate_snr50_for_sentence, if_pos hlt]
  have hf : (estimate_snr50_for_sentence failSolve wRows).status =
      FitStatus.Error "solver raised" := by
    rw [estimate_snr50_for_sentence, if_neg h3, if_neg hvar]
    rfl
  have hs : (estimate_snr50_for_sentence okSolve wRows).status =
      FitStatus.Success := by
    rw [estimate_snr50_for_sentence, if_neg h3, if_neg hvar]
    exact congrArg FitResult.status (if_neg (by norm_num))
  exact ⟨(C9_field_presence okSolve w2Rows).2.1 (Or.inl h2),
    (C9_field_presence failSolve wRows).2.2 "solver raised" hf,
    ((C9_field_presence okSolve wRows).1 hs).2.2⟩

/-- C10: the Analyzer page's overlay call passes ideal_range and
acceptable_range keyword arguments that are not parameters of
create_combined_psychometric_plot (which has no keyword catch-all), so the
keyword binding of every such invocation fails with a TypeError and the call
yields no figure. -/
theorem C10_overlay_type_error :
    pyBindKeywords combinedPlotParams analyzerOverlayKwargs =
      Except.error
        "TypeError: got an unexpected keyword argument ideal_range" ∧
    combinedPlotParams.contains "ideal_range" = false ∧
    combinedPlotParams.contains "acceptable_range" = false ∧
    analyzerOverlayKwargs.filter
        (fun k => ¬ combinedPlotParams.contains k) =
      ["ideal_range", "acceptable_range"] := by
  refine ⟨rfl, ?_, ?_, ?_⟩ <;> decide

end QSin
